import Mathlib

/-!
Shallow embedding of the Cube_render repository (an OpenGL cube renderer:
src/include/window.hpp, src/include/renderer.hpp, src/src/graphics/renderer.cpp,
src/src/graphics/window.cpp, src/src/core/main.cpp), together with theorems
settling the specification claims about it.

Conventions of the embedding:
- C++ `float` literals appearing in the source are modelled as the rationals
  they denote (all literals in this code are exactly representable);
- OpenGL calls are modelled functionally: handle-generating calls
  (glGenTextures, glCreateShader, ...) draw fresh positive identifiers from an
  explicit counter state `GLCtx`; other calls are recorded in traces or in
  records of the arguments passed;
- C++ exceptions are modelled by `Except CppExc`; the two exception classes
  thrown by this program (std::runtime_error and std::domain_error) are the
  constructors of `CppExc`;
- external inputs (file reads, image decodes, GL compile/link status) are
  parameters of the embedded constructors, mirroring the narrow interfaces of
  the spec.
-/

namespace CubeRender

/-! ### window.hpp: WindowAttributes -/

/-- window.hpp line 11: `constexpr GLsizei WINDOW_WIDTH{ 1133 }` (GLsizei is a
signed integer type). -/
def WindowAttributes.WINDOW_WIDTH : Int := 1133

/-- window.hpp line 12: `constexpr GLsizei WINDOW_HEIGHT{ 755 }`. -/
def WindowAttributes.WINDOW_HEIGHT : Int := 755

/-! ### renderer.hpp: VerticeDataVector constants -/

/-- renderer.hpp: `constexpr GLuint STRIDE = 5` — total number of float
components in a single vertex. -/
def VerticeDataVector.STRIDE : Nat := 5

/-- renderer.hpp: `constexpr GLuint POSITION_LOCATION = 0` — position of the
vertex-position components inside one vertex of the data vector. -/
def VerticeDataVector.POSITION_LOCATION : Nat := 0

/-- renderer.hpp: `constexpr GLuint TEXTURE_LOCATION = 3` — position of the
texture-coordinate components inside one vertex of the data vector. -/
def VerticeDataVector.TEXTURE_LOCATION : Nat := 3

/-- renderer.hpp: `constexpr GLuint POSITION_SIZE = 3`. -/
def VerticeDataVector.POSITION_SIZE : Nat := 3

/-- renderer.hpp: `constexpr GLuint TEXTURE_SIZE = 2`. -/
def VerticeDataVector.TEXTURE_SIZE : Nat := 2

/-- Modelled from the spec: the size in bytes of a C++ `float`, i.e.
`sizeof(float)` as used by renderer.cpp in `enableVertexAttribute` and
`BufferSetup`. On every platform this program targets it is 4. -/
def sizeOfFloat : Nat := 4

/-! ### Vertex attributes (renderer.cpp BufferSetup::enableVertexAttribute) -/

/-- renderer.cpp refers to an enum `Renderer::Vertex::Attribute` with the three
cases matched by the switch in `enableVertexAttribute`: POSITION, COLOR and
TEXTURE. Its declaration is not among the files under src/ (renderer.hpp, a
later draft, declares the two-case enum `VSLocation` instead); the three cases
are taken from the switch itself. -/
inductive VertexAttribute where
  | POSITION
  | COLOR
  | TEXTURE
deriving DecidableEq, Repr

/-- Modelled from the spec: the numeric values of the enum
`Renderer::Vertex::Attribute` used by `static_cast<unsigned int>(type)` in
`enableVertexAttribute`; the declaration is missing from src/, so default
enum numbering in switch order (POSITION, COLOR, TEXTURE) is assumed. No claim
depends on these values. -/
def VertexAttribute.toUInt : VertexAttribute → Nat
  | .POSITION => 0
  | .COLOR => 1
  | .TEXTURE => 2

/-- Modelled from the spec: renderer.cpp reads
`Renderer::Vertex::Vector::COLOUR_LOCATION`, which is not defined anywhere
under src/ and which the spec's attribute layout (position and texcoord only)
does not mention; its value is unconstrained and irrelevant to every claim. -/
def COLOUR_LOCATION : Nat := 0

/-- Modelled from the spec: as for `COLOUR_LOCATION`, the constant
`Renderer::Vertex::Vector::COLOUR_SIZE` read by renderer.cpp is absent from
src/; its value is irrelevant to every claim. -/
def COLOUR_SIZE : Nat := 0

/-- The arguments renderer.cpp passes to `glVertexAttribPointer` /
`glEnableVertexAttribArray` for one attribute: the attribute index, the
component count, the normalized flag, the byte stride and the byte offset
(the last two being the fifth and sixth arguments of glVertexAttribPointer). -/
structure AttribPointerCall where
  index : Nat
  size : Nat
  normalized : Bool
  strideBytes : Nat
  offsetBytes : Nat
deriving DecidableEq, Repr

/-- renderer.cpp `BufferSetup::enableVertexAttribute`: switches on the
attribute type to pick `attributeLocation` and `attributeSize`, then calls
`glVertexAttribPointer(static_cast<unsigned int>(type), attributeSize,
GL_FLOAT, GL_FALSE, STRIDE * sizeof(float),
(void*)(attributeLocation * sizeof(float)))`. -/
def enableVertexAttribute (type : VertexAttribute) : AttribPointerCall :=
  let attributeLocation :=
    match type with
    | .POSITION => VerticeDataVector.POSITION_LOCATION
    | .COLOR => COLOUR_LOCATION
    | .TEXTURE => VerticeDataVector.TEXTURE_LOCATION
  let attributeSize :=
    match type with
    | .POSITION => VerticeDataVector.POSITION_SIZE
    | .COLOR => COLOUR_SIZE
    | .TEXTURE => VerticeDataVector.TEXTURE_SIZE
  { index := type.toUInt
    size := attributeSize
    normalized := false
    strideBytes := VerticeDataVector.STRIDE * sizeOfFloat
    offsetBytes := attributeLocation * sizeOfFloat }

/-! ### renderer.cpp: projection arguments (Renderer::CoordinateSystems) -/

/-- The four arguments renderer.cpp passes to `glm::perspective` when
initializing `Renderer::CoordinateSystems::projection`. The field of view is
recorded in degrees (the source passes `glm::radians(45.0f)`). -/
structure PerspectiveArgs where
  fovyDeg : ℚ
  aspect : ℚ
  zNear : ℚ
  zFar : ℚ
deriving DecidableEq, Repr

/-- renderer.cpp lines 25-30: `glm::perspective(glm::radians(45.0f),
static_cast<float>(WindowAttributes::WINDOW_WIDTH /
WindowAttributes::WINDOW_HEIGHT), 0.1f, 1000.0f)`. The width/height quotient
is computed in integer arithmetic (both operands are GLsizei) and only the
truncated quotient is cast to float. -/
def projectionArgs : PerspectiveArgs :=
  { fovyDeg := 45
    aspect := ((WindowAttributes.WINDOW_WIDTH / WindowAttributes.WINDOW_HEIGHT : Int) : ℚ)
    zNear := 1/10
    zFar := 1000 }

/-! ### Exceptions and GL handle allocation -/

/-- The two C++ exception classes this program throws. In the C++ standard
library hierarchy, `std::domain_error` derives from `std::logic_error`, which
derives from `std::exception`; it is NOT a `std::runtime_error`. -/
inductive CppExc where
  | runtimeError (msg : String)
  | domainError (msg : String)
deriving DecidableEq, Repr

/-- The `what()` message of an exception. -/
def CppExc.what : CppExc → String
  | .runtimeError msg => msg
  | .domainError msg => msg

/-- Whether a C++ handler `catch (const std::runtime_error&)` (the only catch
clause in main.cpp) matches a thrown exception: it matches
`std::runtime_error` and its subclasses, and nothing else. `std::domain_error`
is a subclass of `std::logic_error`, not of `std::runtime_error`, so it is not
matched. -/
def caughtByRuntimeErrorHandler : CppExc → Bool
  | .runtimeError _ => true
  | .domainError _ => false

/-- State of the GL name allocator: `glGenTextures`, `glGenBuffers`,
`glGenVertexArrays`, `glCreateShader` and `glCreateProgram` each hand out a
fresh identifier. OpenGL returns nonzero names; the counter starts at 1 and
only increases, so every handed-out identifier is nonzero. -/
structure GLCtx where
  nextId : Nat
deriving DecidableEq, Repr

/-- Allocation of one fresh GL identifier. -/
def genId (ctx : GLCtx) : Nat × GLCtx :=
  (ctx.nextId, { nextId := ctx.nextId + 1 })

/-- The initial allocator state. -/
def ctx0 : GLCtx := { nextId := 1 }

/-- The GL shader stage enum values used by this program (`GL_VERTEX_SHADER`
and `GL_FRAGMENT_SHADER`). -/
inductive ShaderStage where
  | VERTEX
  | FRAGMENT
deriving DecidableEq, Repr

/-- GL calls this embedding records in traces, with the arguments relevant to
the claims. -/
inductive GLCall where
  | createShader (stage : ShaderStage) (id : Nat)
  | shaderSourceCall (id : Nat)
  | compileShaderCall (id : Nat)
  | createProgram (id : Nat)
  | attachShader (programID shaderID : Nat)
  | linkProgram (id : Nat)
  | deleteShader (id : Nat)
deriving DecidableEq, Repr

/-! ### renderer.cpp: Image and Texture -/

/-- The metadata stbi_load reports for a successfully decoded image, i.e. the
values stored into `imgWidth_`, `imgHeight_` and `imgNumberOfChannels_`
(the pixel pointer itself is only ever passed through to glTexImage2D). -/
structure ImageData where
  imgWidth_ : Int
  imgHeight_ : Int
  imgNumberOfChannels_ : Int
deriving DecidableEq, Repr

/-- renderer.cpp `Renderer::Image::Image(imagePath)`: calls `stbi_load`
(modelled by the `decodeResult` input: `none` when stbi_load returns NULL) and
throws `std::domain_error("ERROR::CANNOT LOAD IMAGE " + imagePath)` when the
image failed to load. -/
def ImageCtor (decodeResult : Option ImageData) (imagePath : String) :
    Except CppExc ImageData :=
  match decodeResult with
  | some img => .ok img
  | none => .error (.domainError ("ERROR::CANNOT LOAD IMAGE " ++ imagePath))

/-- The pixel-format enum values this program passes to `glTexImage2D`. -/
inductive GLFormat where
  | RGB
  | RGBA
deriving DecidableEq, Repr

/-- The internal-format and source-format arguments of one `glTexImage2D`
call. -/
structure TexImageCall where
  internalFormat : GLFormat
  sourceFormat : GLFormat
deriving DecidableEq, Repr

/-- The state a constructed `Renderer::Texture` object ends up with: the
generated texture name and the `glTexImage2D` upload it performed, if any. -/
structure TextureRec where
  img : ImageData
  texID_ : Nat
  upload : Option TexImageCall
deriving DecidableEq, Repr

/-- renderer.cpp `Renderer::Texture::Texture(imagePath)`: first runs the base
class constructor `Image(imagePath)` (which may throw), then generates a
texture name, binds and parameterizes it, and uploads the pixels with
`glTexImage2D(GL_TEXTURE_2D, 0, GL_RGB, w, h, 0, GL_RGB, ...)` when
`imgNumberOfChannels_ == 3`, with source format `GL_RGBA` (same internal
format `GL_RGB`) when it is 4, and performs no upload at all for any other
channel count; finally generates mipmaps. -/
def TextureCtor (decodeResult : Option ImageData) (imagePath : String)
    (ctx : GLCtx) : Except CppExc TextureRec × GLCtx :=
  match ImageCtor decodeResult imagePath with
  | .error e => (.error e, ctx)
  | .ok img =>
    let (texID, ctx') := genId ctx
    let upload : Option TexImageCall :=
      if img.imgNumberOfChannels_ = 3 then
        some { internalFormat := .RGB, sourceFormat := .RGB }
      else if img.imgNumberOfChannels_ = 4 then
        some { internalFormat := .RGB, sourceFormat := .RGBA }
      else
        none
    (.ok { img := img, texID_ := texID, upload := upload }, ctx')

/-! ### renderer.cpp: Shader, VertexShader, FragmentShader, ShaderProgram -/

/-- Env constants of renderer.hpp: the vertex shader source location. -/
def Env.VERTEX_SHADER_PATH : String := "../../../shaders/shader.vs"

/-- Env constants of renderer.hpp: the fragment shader source location. -/
def Env.FRAG_SHADER_PATH : String := "../../../shaders/shader.fs"

/-- Env constants of renderer.hpp: the first texture asset location. -/
def Env.SHELF_TEXTURE_PATH : String := "../../../resources/sky.jpg"

/-- Env constants of renderer.hpp: the second texture asset location. -/
def Env.DUCKY_TEXTURE_PATH : String := "../../../resources/rubber-ducky.png"

/-- The data members of `Renderer::Shader`. -/
structure ShaderRec where
  shaderSource_ : String
  shaderID_ : Nat
deriving DecidableEq, Repr

/-- renderer.cpp `Renderer::Shader::Shader(sourcePath)`: the member
initializer list sets `shaderID_{0}`; the body reads the whole file into
`shaderSource_` and, when the ifstream fails (modelled by `readResult = none`
with the ifstream failure's `what()` text as `ewhat`), throws
`std::domain_error("ERROR::CANNOT OPEN::" + sourcePath + " " + e.what())`.
The constructor makes no GL call. Returns the outcome together with the
object state when the constructor finished or threw. -/
def ShaderCtor (readResult : Option String) (sourcePath ewhat : String) :
    Except CppExc Unit × ShaderRec :=
  let s0 : ShaderRec := { shaderSource_ := "", shaderID_ := 0 }
  match readResult with
  | some text => (.ok (), { s0 with shaderSource_ := text })
  | none =>
    (.error (.domainError ("ERROR::CANNOT OPEN::" ++ sourcePath ++ " " ++ ewhat)), s0)

/-- renderer.cpp `Renderer::Shader::checkShaderCompilation(shaderType)`:
queries `GL_COMPILE_STATUS` (modelled by the `success` input) and on failure
throws `std::runtime_error("ERROR::SHADER::" + shaderType +
"::COMPILATION_FAILED\n " + infoLog)`. -/
def checkShaderCompilation (success : Bool) (shaderType infoLog : String) :
    Except CppExc Unit :=
  if success then .ok ()
  else
    .error (.runtimeError ("ERROR::SHADER::" ++ shaderType ++
      "::COMPILATION_FAILED\n " ++ infoLog))

/-- renderer.cpp `Renderer::VertexShader::VertexShader()`: runs the base
constructor `Shader(Env::VERTEX_SHADER_PATH)` (which may throw before any GL
call), then `generateID(GL_VERTEX_SHADER)` (a `glCreateShader` call),
`compileShader()` (glShaderSource and glCompileShader) and
`checkShaderCompilation("VERTEX")`. Returns the outcome, the allocator state
and the trace of GL calls made. -/
def VertexShaderCtor (readResult : Option String) (ewhat : String)
    (compileOk : Bool) (infoLog : String) (ctx : GLCtx) :
    (Except CppExc ShaderRec × GLCtx) × List GLCall :=
  match ShaderCtor readResult Env.VERTEX_SHADER_PATH ewhat with
  | (.error e, _) => ((.error e, ctx), [])
  | (.ok _, base) =>
    let (sid, ctx') := genId ctx
    let withId : ShaderRec := { base with shaderID_ := sid }
    let calls := [GLCall.createShader .VERTEX sid, GLCall.shaderSourceCall sid,
                  GLCall.compileShaderCall sid]
    match checkShaderCompilation compileOk "VERTEX" infoLog with
    | .error e => ((.error e, ctx'), calls)
    | .ok _ => ((.ok withId, ctx'), calls)

/-- renderer.cpp `Renderer::FragmentShader::FragmentShader()`: as
`VertexShaderCtor` but with `Shader(Env::FRAG_SHADER_PATH)`,
`generateID(GL_FRAGMENT_SHADER)` and stage tag "FRAGMENT". -/
def FragmentShaderCtor (readResult : Option String) (ewhat : String)
    (compileOk : Bool) (infoLog : String) (ctx : GLCtx) :
    (Except CppExc ShaderRec × GLCtx) × List GLCall :=
  match ShaderCtor readResult Env.FRAG_SHADER_PATH ewhat with
  | (.error e, _) => ((.error e, ctx), [])
  | (.ok _, base) =>
    let (sid, ctx') := genId ctx
    let withId : ShaderRec := { base with shaderID_ := sid }
    let calls := [GLCall.createShader .FRAGMENT sid, GLCall.shaderSourceCall sid,
                  GLCall.compileShaderCall sid]
    match checkShaderCompilation compileOk "FRAGMENT" infoLog with
    | .error e => ((.error e, ctx'), calls)
    | .ok _ => ((.ok withId, ctx'), calls)

/-- renderer.cpp `Renderer::ShaderProgram::ShaderProgram(vertexShaderID,
fragShaderID)`: creates a program, attaches both shaders, links, queries
`GL_LINK_STATUS` (the `linkOk` input); if linking failed it throws
`std::runtime_error("ERROR::SHADER::PROGRAM::LINKING_FAILED\n" + infoLog)` —
the two `glDeleteShader` calls stand after this check and therefore run only
when linking succeeded. Returns the outcome (the program name), the allocator
state and the GL call trace. -/
def ShaderProgramCtor (vertexShaderID fragShaderID : Nat) (linkOk : Bool)
    (infoLog : String) (ctx : GLCtx) :
    (Except CppExc Nat × GLCtx) × List GLCall :=
  let (pid, ctx') := genId ctx
  let calls := [GLCall.createProgram pid,
                GLCall.attachShader pid vertexShaderID,
                GLCall.attachShader pid fragShaderID,
                GLCall.linkProgram pid]
  if linkOk then
    ((.ok pid, ctx'),
     calls ++ [GLCall.deleteShader vertexShaderID,
               GLCall.deleteShader fragShaderID])
  else
    ((.error (.runtimeError ("ERROR::SHADER::PROGRAM::LINKING_FAILED\n" ++ infoLog)),
      ctx'), calls)

/-! ### renderer.hpp / renderer.cpp: BufferSetup -/

/-- renderer.hpp: the member initializer of `std::vector<float> vertices_`,
the fixed interleaved cube dataset (36 vertices, each 3 position floats
followed by 2 texture-coordinate floats). -/
def vertices_ : List ℚ :=
  [ -1/2, -1/2, -1/2, 0, 0,
     1/2, -1/2, -1/2, 1, 0,
     1/2,  1/2, -1/2, 1, 1,
     1/2,  1/2, -1/2, 1, 1,
    -1/2,  1/2, -1/2, 0, 1,
    -1/2, -1/2, -1/2, 0, 0,

    -1/2, -1/2,  1/2, 0, 0,
     1/2, -1/2,  1/2, 1, 0,
     1/2,  1/2,  1/2, 1, 1,
     1/2,  1/2,  1/2, 1, 1,
    -1/2,  1/2,  1/2, 0, 1,
    -1/2, -1/2,  1/2, 0, 0,

    -1/2,  1/2,  1/2, 1, 0,
    -1/2,  1/2, -1/2, 1, 1,
    -1/2, -1/2, -1/2, 0, 1,
    -1/2, -1/2, -1/2, 0, 1,
    -1/2, -1/2,  1/2, 0, 0,
    -1/2,  1/2,  1/2, 1, 0,

     1/2,  1/2,  1/2, 1, 0,
     1/2,  1/2, -1/2, 1, 1,
     1/2, -1/2, -1/2, 0, 1,
     1/2, -1/2, -1/2, 0, 1,
     1/2, -1/2,  1/2, 0, 0,
     1/2,  1/2,  1/2, 1, 0,

    -1/2, -1/2, -1/2, 0, 1,
     1/2, -1/2, -1/2, 1, 1,
     1/2, -1/2,  1/2, 1, 0,
     1/2, -1/2,  1/2, 1, 0,
    -1/2, -1/2,  1/2, 0, 0,
    -1/2, -1/2, -1/2, 0, 1,

    -1/2,  1/2, -1/2, 0, 1,
     1/2,  1/2, -1/2, 1, 1,
     1/2,  1/2,  1/2, 1, 0,
     1/2,  1/2,  1/2, 1, 0,
    -1/2,  1/2,  1/2, 0, 0,
    -1/2,  1/2, -1/2, 0, 1 ]

/-- renderer.hpp: the member initializer of `std::vector<unsigned int>
indices_` is the empty list — the index dataset is empty. -/
def indices_ : List Nat := []

/-- The state a constructed `Renderer::BufferSetup` object ends up with: the
generated array-object and vertex-buffer names, the element-buffer name when
one was generated (`none` records that `glGenBuffers` was never called for an
EBO), and the attribute-pointer configuration calls made. -/
structure BufferSetupRec where
  VAO_ : Nat
  VBO_ : Nat
  vboByteSize : Nat
  EBO_ : Option Nat
  attribCalls : List AttribPointerCall
deriving DecidableEq, Repr

/-- renderer.cpp `Renderer::BufferSetup::BufferSetup()`: generates and binds
the VAO and the VBO, uploads the vertex data, and — only inside
`if (!indices_.empty())` — generates an EBO and uploads the index data; then
enables the POSITION, COLOR and TEXTURE vertex attributes. The member datasets
are passed explicitly here so the conditional can be stated about them. -/
def BufferSetupCtor (vertices : List ℚ) (indices : List Nat) (ctx : GLCtx) :
    BufferSetupRec × GLCtx :=
  let (vao, ctx1) := genId ctx
  let (vbo, ctx2) := genId ctx1
  let (ebo, ctx3) :=
    if !indices.isEmpty then
      let (e, c) := genId ctx2
      (some e, c)
    else
      (none, ctx2)
  ({ VAO_ := vao
     VBO_ := vbo
     vboByteSize := vertices.length * sizeOfFloat
     EBO_ := ebo
     attribCalls := [enableVertexAttribute .POSITION,
                     enableVertexAttribute .COLOR,
                     enableVertexAttribute .TEXTURE] }, ctx3)

/-! ### renderer.cpp: Renderer::CoordinateSystems (glm matrices over ℝ) -/

/-- glm::radians: degrees to radians. -/
noncomputable def radians (degrees : ℝ) : ℝ := degrees * (Real.pi / 180)

/-- glm::rotate(glm::mat4(1.0f), a, v): builds the rotation matrix about the
normalized axis of `v` by angle `a` (the glm implementation: with c = cos a,
s = sin a and unit axis (ax, ay, az), the 3x3 block has entries
c + (1-c)·ai·aj plus the ±s·ak skew terms), embedded as the 4x4 matrix in
row-major reading (entry i j is glm's column j, row i). Multiplication by the
identity argument is elided. -/
noncomputable def rotateGlm (a : ℝ) (v : ℝ × ℝ × ℝ) :
    Matrix (Fin 4) (Fin 4) ℝ :=
  let c := Real.cos a
  let s := Real.sin a
  let n := Real.sqrt (v.1 * v.1 + v.2.1 * v.2.1 + v.2.2 * v.2.2)
  let ax := v.1 / n
  let ay := v.2.1 / n
  let az := v.2.2 / n
  !![c + (1-c)*ax*ax, (1-c)*ay*ax - s*az, (1-c)*az*ax + s*ay, 0;
     (1-c)*ax*ay + s*az, c + (1-c)*ay*ay, (1-c)*az*ay - s*ax, 0;
     (1-c)*ax*az - s*ay, (1-c)*ay*az + s*ax, c + (1-c)*az*az, 0;
     0, 0, 0, 1]

/-- glm::translate(glm::mat4(1.0f), v): the identity with translation column
v. -/
noncomputable def translateGlm (v : ℝ × ℝ × ℝ) : Matrix (Fin 4) (Fin 4) ℝ :=
  !![1, 0, 0, v.1;
     0, 1, 0, v.2.1;
     0, 0, 1, v.2.2;
     0, 0, 0, 1]

/-- glm::perspective (right-handed, normalized device depth -1..1): with
t = tan(fovy/2), the diagonal is (1/(aspect·t), 1/t, -(far+near)/(far-near))
with the -1 perspective row and the -(2·far·near)/(far-near) depth column. -/
noncomputable def perspectiveGlm (fovy aspect zNear zFar : ℝ) :
    Matrix (Fin 4) (Fin 4) ℝ :=
  let t := Real.tan (fovy / 2)
  !![1 / (aspect * t), 0, 0, 0;
     0, 1 / t, 0, 0;
     0, 0, -(zFar + zNear) / (zFar - zNear), -(2 * zFar * zNear) / (zFar - zNear);
     0, 0, -1, 0]

/-- renderer.cpp lines 13-17: `Renderer::CoordinateSystems::model`, a global
initialized once to `glm::rotate(glm::mat4(1.0f), glm::radians(-55.0f),
glm::vec3(1.0f, 0.0f, 0.0f))` and never written again anywhere in src/. -/
noncomputable def CoordinateSystems.model : Matrix (Fin 4) (Fin 4) ℝ :=
  rotateGlm (radians (-55)) (1, 0, 0)

/-- renderer.cpp lines 20-23: `Renderer::CoordinateSystems::view`, a global
initialized once to `glm::translate(glm::mat4(1.0f),
glm::vec3(0.0f, 0.0f, -3.0f))`. -/
noncomputable def CoordinateSystems.view : Matrix (Fin 4) (Fin 4) ℝ :=
  translateGlm (0, 0, -3)

/-- renderer.cpp lines 25-30: `Renderer::CoordinateSystems::projection`, a
global initialized once with the arguments recorded in `projectionArgs`
(in particular the integer-division aspect). -/
noncomputable def CoordinateSystems.projection : Matrix (Fin 4) (Fin 4) ℝ :=
  perspectiveGlm (radians 45) ((projectionArgs.aspect : ℝ)) (1/10) 1000

/-! ### renderer.hpp: Renderer::GlConstants and the Draw call -/

/-- The draw-mode enum value used by this program (`GL_TRIANGLES`). -/
inductive DrawMode where
  | GL_TRIANGLES
deriving DecidableEq, Repr

/-- The index-type enum value used by this program (`GL_UNSIGNED_INT`). -/
inductive IndexType where
  | GL_UNSIGNED_INT
deriving DecidableEq, Repr

/-- renderer.hpp: `constexpr GLenum DRAW_MODE = GL_TRIANGLES`. -/
def GlConstants.DRAW_MODE : DrawMode := .GL_TRIANGLES

/-- renderer.hpp: `constexpr GLuint INDICES_COUNT = 6`. -/
def GlConstants.INDICES_COUNT : Nat := 6

/-- renderer.hpp: `constexpr GLenum INDICE_TYPE = GL_UNSIGNED_INT`. -/
def GlConstants.INDICE_TYPE : IndexType := .GL_UNSIGNED_INT

/-- renderer.hpp: `constexpr GLint DEFAULT_TEXTURE_UNIT = 0`. -/
def GlConstants.DEFAULT_TEXTURE_UNIT : Int := 0

/-- A draw command as issued at the end of `GL_State::Draw`: either an
indexed `glDrawElements(mode, count, type, 0)` or a non-indexed
`glDrawArrays(mode, first, count)`. -/
inductive DrawCommand where
  | drawElements (mode : DrawMode) (count : Nat) (indexType : IndexType)
  | drawArrays (mode : DrawMode) (first count : Nat)
deriving DecidableEq, Repr

/-- The global transform matrices (the mutable namespace-scope variables of
`Renderer::CoordinateSystems`) as a state component. -/
structure CoordSys where
  model : Matrix (Fin 4) (Fin 4) ℝ
  view : Matrix (Fin 4) (Fin 4) ℝ
  projection : Matrix (Fin 4) (Fin 4) ℝ

/-- The handles `GL_State::Draw` binds: the linked program, the two texture
names and the vertex-array name. -/
structure Resources where
  programID : Nat
  shelfTexID : Nat
  duckyTexID : Nat
  vaoID : Nat
deriving DecidableEq, Repr

/-- The mutable GL/program state `Draw` runs in: the coordinate-system
globals plus the GL binding state it overwrites. -/
structure ProgState where
  globals : CoordSys
  activeProgram : Nat
  boundTextureUnit0 : Nat
  boundTextureUnit1 : Nat
  boundVAO : Nat

/-- The uniform values one `GL_State::Draw` call writes, in source order:
`texture1`, `texture2`, then the `model`, `projection` and `view`
matrices. -/
structure UniformWrites where
  texture1 : Int
  texture2 : Int
  model : Matrix (Fin 4) (Fin 4) ℝ
  projection : Matrix (Fin 4) (Fin 4) ℝ
  view : Matrix (Fin 4) (Fin 4) ℝ

/-- renderer.cpp `Renderer::GL_State::Draw(window)`: fetches the window clock
(the fetched clock is never used — `elapsedSeconds` is ignored), activates the
program, binds the shelf texture on unit 0 and the ducky texture on unit 1,
writes the texture-unit uniforms 0 and 1, writes the model, projection and
view uniforms from the `Renderer::CoordinateSystems` globals, binds the VAO,
and unconditionally issues `glDrawElements(GlConstants::DRAW_MODE,
GlConstants::INDICES_COUNT, GlConstants::INDICE_TYPE, 0)`; no code path calls
glDrawArrays. -/
noncomputable def GL_State.Draw (s : ProgState) (res : Resources)
    (elapsedSeconds : ℝ) : ProgState × UniformWrites × DrawCommand :=
  let _ := elapsedSeconds
  ({ s with
      activeProgram := res.programID
      boundTextureUnit0 := res.shelfTexID
      boundTextureUnit1 := res.duckyTexID
      boundVAO := res.vaoID },
   { texture1 := GlConstants.DEFAULT_TEXTURE_UNIT
     texture2 := GlConstants.DEFAULT_TEXTURE_UNIT + 1
     model := s.globals.model
     projection := s.globals.projection
     view := s.globals.view },
   DrawCommand.drawElements GlConstants.DRAW_MODE GlConstants.INDICES_COUNT
     GlConstants.INDICE_TYPE)

/-- The coordinate-system globals as initialized at program start (and never
mutated anywhere in src/). -/
noncomputable def initCoordSys : CoordSys :=
  { model := CoordinateSystems.model
    view := CoordinateSystems.view
    projection := CoordinateSystems.projection }

/-- A program state at entry of the first Draw call: globals initialized, GL
binding state at its defaults. -/
noncomputable def initProgState : ProgState :=
  { globals := initCoordSys
    activeProgram := 0
    boundTextureUnit0 := 0
    boundTextureUnit1 := 0
    boundVAO := 0 }

/-! ### renderer.cpp: GL_State constructor and main.cpp error handling -/

/-- The external inputs the GL_State construction consumes: the two shader
source reads (with the ifstream failure text when a read fails), the GL
compile and link statuses with their info logs, and the two image decodes. -/
structure ExternalInputs where
  vertexRead : Option String
  vertexReadFailWhat : String
  vertexCompileOk : Bool
  vertexLog : String
  fragRead : Option String
  fragReadFailWhat : String
  fragCompileOk : Bool
  fragLog : String
  linkOk : Bool
  linkLog : String
  shelfDecode : Option ImageData
  duckyDecode : Option ImageData

/-- The members of a fully constructed `Renderer::GL_State`. -/
structure GLStateRec where
  shaderProgram_ : Nat
  myBuffer_ : BufferSetupRec
  shelfTexture_ : TextureRec
  duckyTexture_ : TextureRec
deriving DecidableEq, Repr

/-- renderer.cpp `Renderer::GL_State::GL_State()`: after the viewport, debug
hook, culling and clear-color setup, constructs in order the VertexShader,
the FragmentShader, the ShaderProgram (from the two shader ids), the
BufferSetup (from the member datasets) and the two Textures. There is no
try/catch here: the first exception of any sub-constructor propagates out and
no GL_State object exists. -/
def GL_StateCtor (inp : ExternalInputs) (ctx : GLCtx) :
    Except CppExc GLStateRec × GLCtx :=
  match VertexShaderCtor inp.vertexRead inp.vertexReadFailWhat
      inp.vertexCompileOk inp.vertexLog ctx with
  | ((.error e, c), _) => (.error e, c)
  | ((.ok vertexShader, c1), _) =>
    match FragmentShaderCtor inp.fragRead inp.fragReadFailWhat
        inp.fragCompileOk inp.fragLog c1 with
    | ((.error e, c), _) => (.error e, c)
    | ((.ok fragShader, c2), _) =>
      match ShaderProgramCtor vertexShader.shaderID_ fragShader.shaderID_
          inp.linkOk inp.linkLog c2 with
      | ((.error e, c), _) => (.error e, c)
      | ((.ok pid, c3), _) =>
        let (buf, c4) := BufferSetupCtor vertices_ indices_ c3
        match TextureCtor inp.shelfDecode Env.SHELF_TEXTURE_PATH c4 with
        | (.error e, c) => (.error e, c)
        | (.ok shelf, c5) =>
          match TextureCtor inp.duckyDecode Env.DUCKY_TEXTURE_PATH c5 with
          | (.error e, c) => (.error e, c)
          | (.ok ducky, c6) =>
            (.ok { shaderProgram_ := pid
                   myBuffer_ := buf
                   shelfTexture_ := shelf
                   duckyTexture_ := ducky }, c6)

/-- How the process leaves its initialization phase. -/
inductive ProgramOutcome where
  | enterMainLoop
  | printedAndExitFailure (msg : String)
  | uncaughtException (e : CppExc)
deriving DecidableEq, Repr

/-- main.cpp lines 64-83: `try` runs CreateWindow (whose failure throws
`std::runtime_error`) and the GL_State construction; the only handler is
`catch (const std::runtime_error& except)`, which prints `except.what()` to
stderr and calls `exit(EXIT_FAILURE)`. An exception the handler does not
match (any non-runtime_error, e.g. `std::domain_error`) propagates out of
main uncaught, terminating the process via std::terminate without the
handler's diagnostic print. -/
def mainInit (windowOk : Bool) (inp : ExternalInputs) (ctx : GLCtx) :
    ProgramOutcome :=
  if !windowOk then
    .printedAndExitFailure "ERROR::Failed to initialize window context."
  else
    match (GL_StateCtor inp ctx).1 with
    | .ok _ => .enterMainLoop
    | .error e =>
      if caughtByRuntimeErrorHandler e then
        .printedAndExitFailure e.what
      else
        .uncaughtException e

/-! ### Theorems for the claims -/

/-- C6: in the vertex-attribute configuration performed at geometry
construction, with vertex stride 5 and the layout of `VerticeDataVector`
(position location 0 size 3, texcoord location 3 size 2), the attribute
pointer set for the texture-coordinate attribute has byte offset
3·sizeof(float) and byte stride 5·sizeof(float). -/
theorem c6_texcoord_pointer_offset_and_stride :
    (enableVertexAttribute .TEXTURE).offsetBytes = 3 * sizeOfFloat ∧
    (enableVertexAttribute .TEXTURE).strideBytes = 5 * sizeOfFloat ∧
    (enableVertexAttribute .TEXTURE).size = 2 ∧
    (enableVertexAttribute .POSITION).offsetBytes = 0 * sizeOfFloat ∧
    (enableVertexAttribute .POSITION).strideBytes = 5 * sizeOfFloat := by
  decide

/-- C9: the perspective projection is built with a 45-degree vertical field
of view, near plane 0.1 and far plane 1000, but its aspect argument is NOT
the quotient 1133/755 of the viewport dimensions: the source divides the two
integer constants in integer arithmetic before casting to float, so the
argument passed is 1. -/
theorem c9_projection_aspect_uses_integer_division :
    projectionArgs.fovyDeg = 45 ∧
    projectionArgs.zNear = 1/10 ∧
    projectionArgs.zFar = 1000 ∧
    projectionArgs.aspect = 1 ∧
    (WindowAttributes.WINDOW_WIDTH : ℚ) / (WindowAttributes.WINDOW_HEIGHT : ℚ) ≠
      projectionArgs.aspect := by
  have h1 : projectionArgs.aspect = 1 := by decide
  refine ⟨rfl, rfl, rfl, h1, ?_⟩
  rw [h1]
  norm_num [WindowAttributes.WINDOW_WIDTH, WindowAttributes.WINDOW_HEIGHT]

/-- C4 counterexample: a decoded 1x1 image with 2 channels (neither 3 nor 4)
does NOT make texture creation fail — the constructor returns a texture
object whose upload step was silently skipped, refuting the claim that
unsupported channel counts raise an error. -/
theorem c4_counterexample_two_channels_accepted :
    (TextureCtor
        (some { imgWidth_ := 1, imgHeight_ := 1, imgNumberOfChannels_ := 2 })
        Env.SHELF_TEXTURE_PATH ctx0).1 =
      .ok { img := { imgWidth_ := 1, imgHeight_ := 1, imgNumberOfChannels_ := 2 }
            texID_ := 1
            upload := none } := by
  rfl

/-- C4 amended: for every successfully decoded image whose channel count is
neither 3 nor 4, texture construction succeeds anyway — no error is raised
and no glTexImage2D upload is performed (the unsupported image is silently
accepted into a texture object with no pixel data). -/
theorem c4_amended_unsupported_channels_silently_accepted
    (img : ImageData) (path : String) (ctx : GLCtx)
    (h3 : img.imgNumberOfChannels_ ≠ 3) (h4 : img.imgNumberOfChannels_ ≠ 4) :
    (TextureCtor (some img) path ctx).1 =
      .ok { img := img, texID_ := ctx.nextId, upload := none } := by
  simp [TextureCtor, ImageCtor, genId, h3, h4]

/-- Witness for the amended C4 at a concrete 2-channel image. -/
theorem c4_amended_witness :
    ({ imgWidth_ := 1, imgHeight_ := 1, imgNumberOfChannels_ := 2 } :
        ImageData).imgNumberOfChannels_ ≠ 3 ∧
    ({ imgWidth_ := 1, imgHeight_ := 1, imgNumberOfChannels_ := 2 } :
        ImageData).imgNumberOfChannels_ ≠ 4 ∧
    (TextureCtor
        (some { imgWidth_ := 1, imgHeight_ := 1, imgNumberOfChannels_ := 2 })
        "img.png" ctx0).1 =
      .ok { img := { imgWidth_ := 1, imgHeight_ := 1, imgNumberOfChannels_ := 2 }
            texID_ := ctx0.nextId
            upload := none } :=
  ⟨by decide, by decide,
   c4_amended_unsupported_channels_silently_accepted
     { imgWidth_ := 1, imgHeight_ := 1, imgNumberOfChannels_ := 2 }
     "img.png" ctx0 (by decide) (by decide)⟩

/-- C3 counterexample: for a concrete link failure (shader ids 1 and 2, link
status false), construction does fail with the link error carrying the log,
but NEITHER input shader object is deleted — the two glDeleteShader calls
are absent from the trace, refuting the claim that both shaders are released
on the failure path. -/
theorem c3_counterexample_link_failure_leaks_shaders :
    (ShaderProgramCtor 1 2 false "log" ctx0).1.1 =
      .error (.runtimeError ("ERROR::SHADER::PROGRAM::LINKING_FAILED\n" ++ "log")) ∧
    GLCall.deleteShader 1 ∉ (ShaderProgramCtor 1 2 false "log" ctx0).2 ∧
    GLCall.deleteShader 2 ∉ (ShaderProgramCtor 1 2 false "log" ctx0).2 := by
  refine ⟨rfl, by decide, by decide⟩

/-- C3 amended: when linking fails, ShaderProgram construction fails with the
link error carrying the diagnostic log but releases neither input shader
object (they leak); the two glDeleteShader calls happen only on the success
path, where both inputs are released. -/
theorem c3_amended_release_only_on_success (vid fid : Nat) (infoLog : String)
    (ctx : GLCtx) :
    ((ShaderProgramCtor vid fid false infoLog ctx).1.1 =
       .error (.runtimeError ("ERROR::SHADER::PROGRAM::LINKING_FAILED\n" ++ infoLog)) ∧
     GLCall.deleteShader vid ∉ (ShaderProgramCtor vid fid false infoLog ctx).2 ∧
     GLCall.deleteShader fid ∉ (ShaderProgramCtor vid fid false infoLog ctx).2) ∧
    (GLCall.deleteShader vid ∈ (ShaderProgramCtor vid fid true infoLog ctx).2 ∧
     GLCall.deleteShader fid ∈ (ShaderProgramCtor vid fid true infoLog ctx).2) := by
  simp [ShaderProgramCtor, genId]

/-- C10: when the shader source file cannot be opened or read, the Shader
base constructor raises the domain error with the object still in its
initializer-list state (shaderID of 0), and the VertexShader construction
built on it makes no GL call at all — the allocator state is returned
unchanged and the GL call trace is empty, so no shader object is ever
created on the failure path. -/
theorem c10_read_failure_allocates_no_shader_object
    (sourcePath ewhat infoLog : String) (compileOk : Bool) (ctx : GLCtx) :
    (ShaderCtor none sourcePath ewhat).1 =
      .error (.domainError ("ERROR::CANNOT OPEN::" ++ sourcePath ++ " " ++ ewhat)) ∧
    (ShaderCtor none sourcePath ewhat).2.shaderID_ = 0 ∧
    VertexShaderCtor none ewhat compileOk infoLog ctx =
      ((.error (.domainError
          ("ERROR::CANNOT OPEN::" ++ Env.VERTEX_SHADER_PATH ++ " " ++ ewhat)),
        ctx), []) :=
  ⟨rfl, rfl, rfl⟩

/-- C7: for a successfully decoded 3-channel asset the upload call has source
format RGB, for a 4-channel asset it has source format RGBA, in both cases
into internal format RGB, and in both cases construction completes with the
freshly generated (nonzero) texture handle. -/
theorem c7_upload_format_by_channel_count (ctx : GLCtx) (p3 p4 : String)
    (img3 img4 : ImageData) (hc : 0 < ctx.nextId)
    (h3 : img3.imgNumberOfChannels_ = 3) (h4 : img4.imgNumberOfChannels_ = 4) :
    (TextureCtor (some img3) p3 ctx).1 =
      .ok { img := img3, texID_ := ctx.nextId
            upload := some { internalFormat := .RGB, sourceFormat := .RGB } } ∧
    (TextureCtor (some img4) p4 ctx).1 =
      .ok { img := img4, texID_ := ctx.nextId
            upload := some { internalFormat := .RGB, sourceFormat := .RGBA } } ∧
    ctx.nextId ≠ 0 := by
  refine ⟨?_, ?_, Nat.pos_iff_ne_zero.mp hc⟩
  · simp [TextureCtor, ImageCtor, genId, h3]
  · simp [TextureCtor, ImageCtor, genId, h4]

/-- Witness for C7 at concrete 3-channel and 4-channel images and the initial
allocator. -/
theorem c7_upload_format_witness :
    0 < ctx0.nextId ∧
    ({ imgWidth_ := 2, imgHeight_ := 2, imgNumberOfChannels_ := 3 } :
        ImageData).imgNumberOfChannels_ = 3 ∧
    ({ imgWidth_ := 2, imgHeight_ := 2, imgNumberOfChannels_ := 4 } :
        ImageData).imgNumberOfChannels_ = 4 ∧
    ((TextureCtor
        (some { imgWidth_ := 2, imgHeight_ := 2, imgNumberOfChannels_ := 3 })
        "sky.jpg" ctx0).1 =
      .ok { img := { imgWidth_ := 2, imgHeight_ := 2, imgNumberOfChannels_ := 3 }
            texID_ := ctx0.nextId
            upload := some { internalFormat := .RGB, sourceFormat := .RGB } } ∧
     (TextureCtor
        (some { imgWidth_ := 2, imgHeight_ := 2, imgNumberOfChannels_ := 4 })
        "ducky.png" ctx0).1 =
      .ok { img := { imgWidth_ := 2, imgHeight_ := 2, imgNumberOfChannels_ := 4 }
            texID_ := ctx0.nextId
            upload := some { internalFormat := .RGB, sourceFormat := .RGBA } } ∧
     ctx0.nextId ≠ 0) :=
  ⟨by decide, rfl, rfl,
   c7_upload_format_by_channel_count ctx0 "sky.jpg" "ducky.png"
     { imgWidth_ := 2, imgHeight_ := 2, imgNumberOfChannels_ := 3 }
     { imgWidth_ := 2, imgHeight_ := 2, imgNumberOfChannels_ := 4 }
     (by decide) rfl rfl⟩

/-- Inputs for which everything succeeds except the decode of the second
texture asset (the rubber-ducky image): the Image constructor then throws
std::domain_error. -/
def duckyMissingInputs : ExternalInputs :=
  { vertexRead := some "vertex source"
    vertexReadFailWhat := ""
    vertexCompileOk := true
    vertexLog := ""
    fragRead := some "fragment source"
    fragReadFailWhat := ""
    fragCompileOk := true
    fragLog := ""
    linkOk := true
    linkLog := ""
    shelfDecode := some { imgWidth_ := 2, imgHeight_ := 2, imgNumberOfChannels_ := 3 }
    duckyDecode := none }

/-- C5: construction-time failures do NOT all surface as a reported failure
with diagnostic print and exit(EXIT_FAILURE). At the failing input where the
ducky image decode fails, GL_State construction propagates a
std::domain_error, which main's only handler — catch of const
std::runtime_error reference — does not match: the exception escapes main
uncaught (no diagnostic print, termination via std::terminate). A link
failure, by contrast, is a std::runtime_error and does reach the
print-and-exit path. -/
theorem c5_decode_failure_escapes_main_handler :
    (GL_StateCtor duckyMissingInputs ctx0).1 =
      .error (.domainError ("ERROR::CANNOT LOAD IMAGE " ++ Env.DUCKY_TEXTURE_PATH)) ∧
    mainInit true duckyMissingInputs ctx0 =
      .uncaughtException
        (.domainError ("ERROR::CANNOT LOAD IMAGE " ++ Env.DUCKY_TEXTURE_PATH)) ∧
    (∀ msg, mainInit true duckyMissingInputs ctx0 ≠ .printedAndExitFailure msg) ∧
    mainInit true { duckyMissingInputs with linkOk := false, linkLog := "bad link" } ctx0 =
      .printedAndExitFailure ("ERROR::SHADER::PROGRAM::LINKING_FAILED\n" ++ "bad link") := by
  refine ⟨rfl, rfl, ?_, rfl⟩
  intro msg h
  rw [show mainInit true duckyMissingInputs ctx0 =
        .uncaughtException
          (.domainError ("ERROR::CANNOT LOAD IMAGE " ++ Env.DUCKY_TEXTURE_PATH))
      from rfl] at h
  exact ProgramOutcome.noConfusion h

/-- C1 counterexample: the geometry is constructed with the empty index
dataset and indeed creates no index-buffer handle, yet the draw does NOT
take a non-indexed path of 36 vertices: it issues an indexed glDrawElements
with the configured count 6 and type GL_UNSIGNED_INT even though no index
buffer exists. -/
theorem c1_counterexample_indexed_draw_without_ebo :
    (BufferSetupCtor vertices_ indices_ ctx0).1.EBO_ = none ∧
    (GL_State.Draw initProgState
        { programID := 1, shelfTexID := 2, duckyTexID := 3, vaoID := 4 } 0).2.2 =
      DrawCommand.drawElements .GL_TRIANGLES 6 .GL_UNSIGNED_INT ∧
    (GL_State.Draw initProgState
        { programID := 1, shelfTexID := 2, duckyTexID := 3, vaoID := 4 } 0).2.2 ≠
      DrawCommand.drawArrays .GL_TRIANGLES 0 36 :=
  ⟨rfl, rfl,
   (by decide :
     DrawCommand.drawElements .GL_TRIANGLES 6 .GL_UNSIGNED_INT ≠
       DrawCommand.drawArrays .GL_TRIANGLES 0 36)⟩

/-- C1 amended: a geometry constructed with an empty index dataset never
creates an index-buffer handle, but `Draw` unconditionally issues the
indexed draw with the configured index count (6) and type (GL_UNSIGNED_INT)
regardless of the geometry — there is no non-indexed code path and no draw
of 36 vertices. -/
theorem c1_amended_no_ebo_but_always_indexed (ind : List Nat) (ctx : GLCtx)
    (s : ProgState) (res : Resources) (t : ℝ) (h : ind = []) :
    (BufferSetupCtor vertices_ ind ctx).1.EBO_ = none ∧
    (GL_State.Draw s res t).2.2 =
      DrawCommand.drawElements GlConstants.DRAW_MODE GlConstants.INDICES_COUNT
        GlConstants.INDICE_TYPE := by
  subst h
  exact ⟨rfl, rfl⟩

/-- Witness for the amended C1 at the repository's own (empty) index dataset
and a concrete draw state. -/
theorem c1_amended_witness :
    ([] : List Nat) = [] ∧
    ((BufferSetupCtor vertices_ [] ctx0).1.EBO_ = none ∧
     (GL_State.Draw initProgState
        { programID := 1, shelfTexID := 2, duckyTexID := 3, vaoID := 4 } 0).2.2 =
       DrawCommand.drawElements GlConstants.DRAW_MODE GlConstants.INDICES_COUNT
         GlConstants.INDICE_TYPE) :=
  ⟨rfl,
   c1_amended_no_ebo_but_always_indexed [] ctx0 initProgState
     { programID := 1, shelfTexID := 2, duckyTexID := 3, vaoID := 4 } 0 rfl⟩

/-- C8: the model, view and projection matrices a draw call writes are the
same on a repeated call with the same elapsed time (drawing does not mutate
the coordinate-system globals), and from the program's initial state they
are exactly the three fixed matrices computed from the compiled-in constants
— a pure function of time, viewport and constants (here even constant in
time). -/
theorem c8_draw_matrices_deterministic (s : ProgState) (res res2 : Resources)
    (t : ℝ) :
    ((GL_State.Draw (GL_State.Draw s res2 t).1 res t).2.1.model =
       (GL_State.Draw s res t).2.1.model ∧
     (GL_State.Draw (GL_State.Draw s res2 t).1 res t).2.1.view =
       (GL_State.Draw s res t).2.1.view ∧
     (GL_State.Draw (GL_State.Draw s res2 t).1 res t).2.1.projection =
       (GL_State.Draw s res t).2.1.projection) ∧
    (GL_State.Draw s res t).1.globals = s.globals ∧
    ((GL_State.Draw initProgState res t).2.1.model = CoordinateSystems.model ∧
     (GL_State.Draw initProgState res t).2.1.view = CoordinateSystems.view ∧
     (GL_State.Draw initProgState res t).2.1.projection =
       CoordinateSystems.projection) :=
  ⟨⟨rfl, rfl, rfl⟩, rfl, ⟨rfl, rfl, rfl⟩⟩

/-- C2 counterexample: at elapsed time 0 the model uniform written by Draw is
the fixed rotation by -55 degrees about the x-axis, which is not the claimed
time-driven rotation about axis (0.5, 1, 0) at 50 degrees per second: at
t = 0 the claimed rotation is by angle 0, i.e. the identity, whose (1,1)
entry is 1, while the written matrix has (1,1) entry cos(55·π/180) < 1. -/
theorem c2_counterexample_model_not_time_driven :
    (GL_State.Draw initProgState
        { programID := 1, shelfTexID := 2, duckyTexID := 3, vaoID := 4 }
        0).2.1.model ≠
      rotateGlm (radians (50 * 0)) (1/2, 1, 0) := by
  intro h
  have h' : rotateGlm (radians (-55)) ((1 : ℝ), 0, 0) =
      rotateGlm (radians (50 * 0)) (1/2, 1, 0) := h
  have h11 := congrFun (congrFun h' 1) 1
  simp only [rotateGlm, radians, Matrix.cons_val', Matrix.cons_val_one,
    Matrix.head_cons, Matrix.empty_val', Matrix.cons_val_fin_one,
    Matrix.head_fin_const, Matrix.of_apply] at h11
  norm_num [Real.cos_zero] at h11
  have hy0 : (0 : ℝ) < 55 * (Real.pi / 180) := by
    have := Real.pi_pos
    linarith
  have hyπ : 55 * (Real.pi / 180) ≤ Real.pi := by
    have := Real.pi_pos
    linarith
  have hlt : Real.cos (55 * (Real.pi / 180)) < 1 := by
    have hc := Real.cos_lt_cos_of_nonneg_of_le_pi le_rfl hyπ hy0
    rwa [Real.cos_zero] at hc
  linarith

/-- C2 amended: the model matrix written to the model uniform is the fixed
rotation by -55 degrees about axis (1, 0, 0) — a global initialized once —
and is independent of the elapsed-time argument: every draw call at every
time writes the same matrix (it is not time-driven). -/
theorem c2_amended_model_uniform_constant (s : ProgState) (res res2 : Resources)
    (t u : ℝ) :
    (GL_State.Draw s res t).2.1.model = s.globals.model ∧
    (GL_State.Draw initProgState res t).2.1.model =
      rotateGlm (radians (-55)) (1, 0, 0) ∧
    (GL_State.Draw initProgState res t).2.1.model =
      (GL_State.Draw initProgState res2 u).2.1.model :=
  ⟨rfl, rfl, rfl⟩

end CubeRender
